import Mathlib

/-!
Verification development for the yarp streaming lexer (src/ext/yarp/yarp.c).

The C source is shallowly embedded: the byte buffer is a `List Nat` of byte
values (0-255) and every pointer of the C code is an offset into it.  The C
lexer relies on a NUL sentinel reachable at `buf[N]` (the data model of the
accompanying design notes); reads at or past the end of the buffer are
therefore modelled as the byte 0 (`byteAt` below).  The single read before
the buffer (`parser->current.end[-2]` in the `=begin` check, flagged as an
open question in the design notes) is likewise modelled as byte 0.

The error-handler table is instantiated with the only implementation that
exists in the repository, `unrecoverable` (returns `YP_TOKEN_EOF`), exactly
as `each_token` wires it for all four unterminated-literal slots.

`push_lex_mode` is modelled faithfully including its overflow behaviour:
when the stack index moves past the inline capacity `YP_LEX_STACK_SIZE`,
the C code mallocs a fresh node and never stores `lex_mode` into it, so the
node the lexer will subsequently read is uninitialized memory.  The model
marks that cell `LexCell.uninit`; `lex_token_type` returns `none` when it
would have to read such a cell (undefined behaviour in the C program).
-/

namespace Yarp

/-- Token kinds, in the order of the `yp_token_type_t` enum of yarp.h.
`YP_TOKEN_EOF` is the first member (value 0), which is what a
zero-initialized `yp_token_t` carries. -/
inductive yp_token_type where
  | YP_TOKEN_EOF
  | YP_TOKEN_INVALID
  | YP_TOKEN_AMPERSAND
  | YP_TOKEN_AMPERSAND_AMPERSAND
  | YP_TOKEN_AMPERSAND_AMPERSAND_EQUAL
  | YP_TOKEN_AMPERSAND_EQUAL
  | YP_TOKEN_BACK_REFERENCE
  | YP_TOKEN_BACKTICK
  | YP_TOKEN_BANG
  | YP_TOKEN_BANG_AT
  | YP_TOKEN_BANG_EQUAL
  | YP_TOKEN_BANG_TILDE
  | YP_TOKEN_BRACE_LEFT
  | YP_TOKEN_BRACE_RIGHT
  | YP_TOKEN_BRACKET_LEFT
  | YP_TOKEN_BRACKET_LEFT_RIGHT
  | YP_TOKEN_BRACKET_RIGHT
  | YP_TOKEN_CARET
  | YP_TOKEN_CARET_EQUAL
  | YP_TOKEN_CHARACTER_LITERAL
  | YP_TOKEN_CLASS_VARIABLE
  | YP_TOKEN_COLON
  | YP_TOKEN_COLON_COLON
  | YP_TOKEN_COMMA
  | YP_TOKEN_COMMENT
  | YP_TOKEN_CONSTANT
  | YP_TOKEN_DOT
  | YP_TOKEN_DOT_DOT
  | YP_TOKEN_DOT_DOT_DOT
  | YP_TOKEN_EMBDOC_BEGIN
  | YP_TOKEN_EMBDOC_END
  | YP_TOKEN_EMBDOC_LINE
  | YP_TOKEN_EMBEXPR_BEGIN
  | YP_TOKEN_EMBEXPR_END
  | YP_TOKEN_EQUAL
  | YP_TOKEN_EQUAL_EQUAL
  | YP_TOKEN_EQUAL_EQUAL_EQUAL
  | YP_TOKEN_EQUAL_GREATER
  | YP_TOKEN_EQUAL_TILDE
  | YP_TOKEN_FLOAT
  | YP_TOKEN_GREATER
  | YP_TOKEN_GREATER_EQUAL
  | YP_TOKEN_GREATER_GREATER
  | YP_TOKEN_GREATER_GREATER_EQUAL
  | YP_TOKEN_GLOBAL_VARIABLE
  | YP_TOKEN_IDENTIFIER
  | YP_TOKEN_IMAGINARY_NUMBER
  | YP_TOKEN_INSTANCE_VARIABLE
  | YP_TOKEN_INTEGER
  | YP_TOKEN_KEYWORD___ENCODING__
  | YP_TOKEN_KEYWORD___LINE__
  | YP_TOKEN_KEYWORD___FILE__
  | YP_TOKEN_KEYWORD_ALIAS
  | YP_TOKEN_KEYWORD_AND
  | YP_TOKEN_KEYWORD_BEGIN
  | YP_TOKEN_KEYWORD_BEGIN_UPCASE
  | YP_TOKEN_KEYWORD_BREAK
  | YP_TOKEN_KEYWORD_CASE
  | YP_TOKEN_KEYWORD_CLASS
  | YP_TOKEN_KEYWORD_DEF
  | YP_TOKEN_KEYWORD_DEFINED
  | YP_TOKEN_KEYWORD_DO
  | YP_TOKEN_KEYWORD_ELSE
  | YP_TOKEN_KEYWORD_ELSIF
  | YP_TOKEN_KEYWORD_END
  | YP_TOKEN_KEYWORD_END_UPCASE
  | YP_TOKEN_KEYWORD_ENSURE
  | YP_TOKEN_KEYWORD_FALSE
  | YP_TOKEN_KEYWORD_FOR
  | YP_TOKEN_KEYWORD_IF
  | YP_TOKEN_KEYWORD_IN
  | YP_TOKEN_KEYWORD_MODULE
  | YP_TOKEN_KEYWORD_NEXT
  | YP_TOKEN_KEYWORD_NIL
  | YP_TOKEN_KEYWORD_NOT
  | YP_TOKEN_KEYWORD_OR
  | YP_TOKEN_KEYWORD_REDO
  | YP_TOKEN_KEYWORD_RESCUE
  | YP_TOKEN_KEYWORD_RETRY
  | YP_TOKEN_KEYWORD_RETURN
  | YP_TOKEN_KEYWORD_SELF
  | YP_TOKEN_KEYWORD_SUPER
  | YP_TOKEN_KEYWORD_THEN
  | YP_TOKEN_KEYWORD_TRUE
  | YP_TOKEN_KEYWORD_UNDEF
  | YP_TOKEN_KEYWORD_UNLESS
  | YP_TOKEN_KEYWORD_UNTIL
  | YP_TOKEN_KEYWORD_WHEN
  | YP_TOKEN_KEYWORD_WHILE
  | YP_TOKEN_KEYWORD_YIELD
  | YP_TOKEN_LABEL
  | YP_TOKEN_LAMBDA_BEGIN
  | YP_TOKEN_LESS
  | YP_TOKEN_LESS_EQUAL
  | YP_TOKEN_LESS_EQUAL_GREATER
  | YP_TOKEN_LESS_LESS
  | YP_TOKEN_LESS_LESS_EQUAL
  | YP_TOKEN_MINUS
  | YP_TOKEN_MINUS_AT
  | YP_TOKEN_MINUS_EQUAL
  | YP_TOKEN_MINUS_GREATER
  | YP_TOKEN_NEWLINE
  | YP_TOKEN_NTH_REFERENCE
  | YP_TOKEN_PARENTHESIS_LEFT
  | YP_TOKEN_PARENTHESIS_RIGHT
  | YP_TOKEN_PERCENT
  | YP_TOKEN_PERCENT_EQUAL
  | YP_TOKEN_PERCENT_LOWER_I
  | YP_TOKEN_PERCENT_LOWER_W
  | YP_TOKEN_PERCENT_LOWER_X
  | YP_TOKEN_PERCENT_UPPER_I
  | YP_TOKEN_PERCENT_UPPER_W
  | YP_TOKEN_PIPE
  | YP_TOKEN_PIPE_EQUAL
  | YP_TOKEN_PIPE_PIPE
  | YP_TOKEN_PIPE_PIPE_EQUAL
  | YP_TOKEN_PLUS
  | YP_TOKEN_PLUS_AT
  | YP_TOKEN_PLUS_EQUAL
  | YP_TOKEN_QUESTION_MARK
  | YP_TOKEN_RATIONAL_NUMBER
  | YP_TOKEN_REGEXP_BEGIN
  | YP_TOKEN_REGEXP_END
  | YP_TOKEN_SEMICOLON
  | YP_TOKEN_SLASH
  | YP_TOKEN_SLASH_EQUAL
  | YP_TOKEN_STAR
  | YP_TOKEN_STAR_EQUAL
  | YP_TOKEN_STAR_STAR
  | YP_TOKEN_STAR_STAR_EQUAL
  | YP_TOKEN_STRING_BEGIN
  | YP_TOKEN_STRING_CONTENT
  | YP_TOKEN_STRING_END
  | YP_TOKEN_SYMBOL_BEGIN
  | YP_TOKEN_TILDE
  | YP_TOKEN_TILDE_AT
  | YP_TOKEN_WORDS_SEP
deriving DecidableEq, BEq, Repr

/-- Lexer mode tags, mirroring the anonymous `mode` enum of `yp_lex_mode_t`. -/
inductive yp_lex_mode_kind where
  | YP_LEX_DEFAULT
  | YP_LEX_EMBDOC
  | YP_LEX_EMBEXPR
  | YP_LEX_LIST
  | YP_LEX_REGEXP
  | YP_LEX_STRING
  | YP_LEX_SYMBOL
deriving DecidableEq, BEq, Repr

/-- A lex mode record: tag, terminator byte and interpolation flag
(`yp_lex_mode_t` without the `prev` pointer, which the model realises
through the stack structure below). -/
structure yp_lex_mode where
  mode : yp_lex_mode_kind
  term : Nat
  interp : Bool
deriving DecidableEq, BEq, Repr

/-- `YP_LEX_STACK_SIZE` from yarp.h. -/
def YP_LEX_STACK_SIZE : Nat := 4

/-- What `parser->lex_modes.current` points at: either a cell whose contents
are known, or the node `push_lex_mode` mallocs on overflow and never writes
(uninitialized memory). -/
inductive LexCell where
  | known (m : yp_lex_mode)
  | uninit
deriving DecidableEq, BEq, Repr

/-- The `lex_modes` member of `yp_parser_t`: the inline four-slot array, the
index, and the current cell. -/
structure lex_modes_t where
  index : Nat
  stack : List yp_lex_mode
  current : LexCell
deriving DecidableEq, BEq, Repr

/-- All-zero lex mode; C zero-initializes the unused inline slots to this. -/
def zero_lex_mode : yp_lex_mode := ⟨.YP_LEX_DEFAULT, 0, false⟩

/-- `push_lex_mode` (yarp.c): increments the index; while within the inline
space it stores the record into the slot and points `current` at it; past
the inline space it mallocs a node and points `current` at it.  The C code
never copies `lex_mode` into the malloc'd node, so the spilled cell is
uninitialized. -/
def push_lex_mode (lm : lex_modes_t) (lex_mode : yp_lex_mode) : lex_modes_t :=
  let index := lm.index + 1
  if index > YP_LEX_STACK_SIZE - 1 then
    { index := index, stack := lm.stack, current := .uninit }
  else
    { index := index, stack := lm.stack.set index lex_mode,
      current := .known lex_mode }

/-- `pop_lex_mode` (yarp.c): at index 0 the base is reset to `YP_LEX_DEFAULT`
(defensive no-op); within the inline space it decrements the index and
repoints `current` at the inline slot; past the inline space it frees the
heap node and follows its `prev` pointer, which for a spilled (uninitialized)
node is garbage. -/
def pop_lex_mode (lm : lex_modes_t) : lex_modes_t :=
  if lm.index = 0 then
    { lm with current :=
        match lm.current with
        | .known m => .known { m with mode := .YP_LEX_DEFAULT }
        | .uninit => .uninit }
  else if lm.index < YP_LEX_STACK_SIZE then
    { index := lm.index - 1, stack := lm.stack,
      current := .known (lm.stack.getD (lm.index - 1) zero_lex_mode) }
  else
    { index := lm.index - 1, stack := lm.stack, current := .uninit }

/-- `yp_token_t`: kind plus byte offsets.  `endP` is the `end` field of the
C struct (`end` is reserved in Lean). -/
structure yp_token where
  type : yp_token_type
  start : Nat
  endP : Nat
deriving DecidableEq, BEq, Repr

/-- `yp_parser_t`: mode stack, borrowed buffer, previous/current tokens and
the line counter.  `parser->start` is offset 0 and `parser->end` is
`src.length`. -/
structure yp_parser_t where
  lex_modes : lex_modes_t
  src : List Nat
  previous : yp_token
  current : yp_token
  lineno : Nat
deriving DecidableEq, BEq, Repr

/-- Byte read through the NUL-sentinel model: `buf[i]` for `i < N`, and the
sentinel byte 0 at or past the logical end. -/
def byteAt (src : List Nat) (i : Nat) : Nat := src.getD i 0

/-- `is_binary_number_char` (yarp.c). -/
def is_binary_number_char (c : Nat) : Bool := c == 48 || c == 49

/-- `is_octal_number_char` (yarp.c). -/
def is_octal_number_char (c : Nat) : Bool := decide (48 ≤ c) && decide (c ≤ 55)

/-- `is_decimal_number_char` (yarp.c). -/
def is_decimal_number_char (c : Nat) : Bool := decide (48 ≤ c) && decide (c ≤ 57)

/-- `is_hexadecimal_number_char` (yarp.c). -/
def is_hexadecimal_number_char (c : Nat) : Bool :=
  (decide (48 ≤ c) && decide (c ≤ 57)) ||
  (decide (97 ≤ c) && decide (c ≤ 102)) ||
  (decide (65 ≤ c) && decide (c ≤ 70))

/-- `is_identifier_start_char` (yarp.c): ASCII letter or underscore. -/
def is_identifier_start_char (c : Nat) : Bool :=
  (decide (97 ≤ c) && decide (c ≤ 122)) ||
  (decide (65 ≤ c) && decide (c ≤ 90)) || c == 95

/-- `is_identifier_char` (yarp.c). -/
def is_identifier_char (c : Nat) : Bool :=
  is_identifier_start_char c || is_decimal_number_char c

/-- `is_non_newline_whitespace_char` (yarp.c): space, tab, FF, CR, VT. -/
def is_non_newline_whitespace_char (c : Nat) : Bool :=
  c == 32 || c == 9 || c == 12 || c == 13 || c == 11

/-- `is_whitespace_char` (yarp.c). -/
def is_whitespace_char (c : Nat) : Bool :=
  is_non_newline_whitespace_char c || c == 10

/-- `terminator` (yarp.c): the matching closer for a balanced delimiter,
any other byte terminating itself. -/
def terminator (start : Nat) : Nat :=
  match start with
  | 40 => 41    -- ( -> )
  | 91 => 93    -- [ -> ]
  | 123 => 125  -- grave: brace pair
  | 60 => 62    -- < -> >
  | _ => start

/-- Length of the longest run of bytes satisfying `f` at the head of a list;
models the C `while (pred(*end)) end++;` loops under the sentinel
convention (the sentinel byte 0 fails every predicate those loops use). -/
def countWhile (f : Nat → Bool) : List Nat → Nat
  | [] => 0
  | b :: rest => if f b then countWhile f rest + 1 else 0

/-- The digit-run loops of the numeric scanner:
`while (is_digit(end)) { end++; match(parser, '_'); }` — a digit is consumed
and at most one underscore directly after it. -/
def numericRun (isD : Nat → Bool) : List Nat → Nat
  | [] => 0
  | [b] => if isD b then 1 else 0
  | b :: c :: rest =>
    if isD b then
      if c == 95 then numericRun isD rest + 2
      else numericRun isD (c :: rest) + 1
    else 0

/-- Number of newline bytes in a list (the `if (*end == '\n') lineno++;`
bookkeeping of the word-list whitespace loop). -/
def countNewlines : List Nat → Nat
  | [] => 0
  | b :: rest => (if b == 10 then 1 else 0) + countNewlines rest

/-- `strncmp(src + i, w, w.length) == 0` for a pattern `w` that contains no
NUL byte (both patterns used by the source, `"begin\n"` and `"=end\n"`, are
NUL-free): equality of the next `w.length` buffer bytes with `w`.  Under the
sentinel model a comparison that runs past the end of the buffer fails, just
as strncmp fails at the NUL sentinel. -/
def strncmp_eq (src : List Nat) (i : Nat) (w : List Nat) : Bool :=
  (src.drop i).take w.length == w


/-- The shared shape of the `0d`/`0b`/`0o`/`0x` cases of the numeric scanner:
consume the base sigil, require one digit of the base (else the early
`return YP_TOKEN_INVALID` that bypasses the trailing-underscore check),
then the digit run.  The Bool marks that early return. -/
def numericBase (src : List Nat) (pos : Nat) (isD : Nat → Bool) :
    Bool × yp_token_type × Nat :=
  if !isD (byteAt src (pos + 1)) then (true, .YP_TOKEN_INVALID, 1)
  else (false, .YP_TOKEN_INTEGER, 1 + numericRun isD (src.drop (pos + 1)))

/-- `lex_optional_float_suffix` (yarp.c).  Takes the buffer and the current
offset; returns the token type together with the number of bytes consumed
from `pos`.  A `.` not followed by a decimal digit returns immediately
(method call), skipping the exponent check; a malformed exponent returns
`YP_TOKEN_INVALID` with the sign consumed. -/
def lex_optional_float_suffix (src : List Nat) (pos : Nat) : yp_token_type × Nat :=
  if byteAt src pos == 46 &&  -- '.'
     !(decide (pos + 1 < src.length) &&
       is_decimal_number_char (byteAt src (pos + 1))) then
    -- the early `return type` of the C code: a '.' with no digit after it
    (.YP_TOKEN_INTEGER, 0)
  else
    -- fractional part, when present
    let (type, d) : yp_token_type × Nat :=
      if byteAt src pos == 46 then
        (.YP_TOKEN_FLOAT,
         2 + numericRun is_decimal_number_char (src.drop (pos + 2)))
      else (.YP_TOKEN_INTEGER, 0)
    -- exponent part: match 'e'/'E', optional sign, then required digits
    if byteAt src (pos + d) == 101 || byteAt src (pos + d) == 69 then
      let sd := if byteAt src (pos + d + 1) == 43 || byteAt src (pos + d + 1) == 45
                then 1 else 0
      if is_decimal_number_char (byteAt src (pos + d + 1 + sd)) then
        (.YP_TOKEN_FLOAT,
         d + 1 + sd + 1 +
           numericRun is_decimal_number_char (src.drop (pos + d + 1 + sd + 1)))
      else (.YP_TOKEN_INVALID, d + 1 + sd)
    else (type, d)

/-- `lex_numeric_prefix` (yarp.c); the name carries an `_impl` suffix only
because of a lexical restriction on names in this development.  `pos` is the
offset one past the first digit (consumed by the dispatcher), so
`byteAt src (pos - 1)` is `parser->current.end[-1]`.  Returns the token type
and the bytes consumed from `pos`. -/
def lex_numeric_prefix_impl (src : List Nat) (pos : Nat) : yp_token_type × Nat :=
  let branch : Bool × yp_token_type × Nat :=
    if byteAt src (pos - 1) == 48 then  -- '0'
      match byteAt src pos with
      | 100 => numericBase src pos is_decimal_number_char      -- 'd'
      | 68 => numericBase src pos is_decimal_number_char       -- 'D'
      | 98 => numericBase src pos is_binary_number_char        -- 'b'
      | 66 => numericBase src pos is_binary_number_char        -- 'B'
      | 111 => numericBase src pos is_octal_number_char        -- 'o'
      | 79 => numericBase src pos is_octal_number_char         -- 'O'
      | 48 | 49 | 50 | 51 | 52 | 53 | 54 | 55 =>               -- '0'-'7'
        (false, .YP_TOKEN_INTEGER,
         numericRun is_octal_number_char (src.drop pos))
      | 120 => numericBase src pos is_hexadecimal_number_char  -- 'x'
      | 88 => numericBase src pos is_hexadecimal_number_char   -- 'X'
      | 46 =>  -- '.'
        let (t, d) := lex_optional_float_suffix src pos
        (false, t, d)
      | 101 =>  -- 'e'
        let (t, d) := lex_optional_float_suffix src pos
        (false, t, d)
      | 69 =>  -- 'E'
        let (t, d) := lex_optional_float_suffix src pos
        (false, t, d)
      | _ => (false, .YP_TOKEN_INTEGER, 0)
    else
      -- no leading zero: a decimal run, then the optional float suffix
      let run := numericRun is_decimal_number_char (src.drop pos)
      let (t, d) := lex_optional_float_suffix src (pos + run)
      (false, t, run + d)
  let (early, type, d) := branch
  if early then (type, d)
  else if byteAt src (pos + d - 1) == 95 then (.YP_TOKEN_INVALID, d)  -- '_'
  else (type, d)

/-- `lex_numeric` (yarp.c): the numeric body, then
`if (match(parser, 'r'))` upgrading to rational and `if (match(parser, 'i'))`
upgrading to imaginary, in that order. -/
def lex_numeric (src : List Nat) (pos : Nat) : yp_token_type × Nat :=
  let (type, d) := lex_numeric_prefix_impl src pos
  if type != .YP_TOKEN_INVALID then
    let (type, d) := if byteAt src (pos + d) == 114  -- 'r'
                     then (.YP_TOKEN_RATIONAL_NUMBER, d + 1) else (type, d)
    let (type, d) := if byteAt src (pos + d) == 105  -- 'i'
                     then (.YP_TOKEN_IMAGINARY_NUMBER, d + 1) else (type, d)
    (type, d)
  else (type, d)

/-- `lex_global_variable` (yarp.c).  `pos` is one past the `$`; returns the
token type and the bytes consumed from `pos`. -/
def lex_global_variable (src : List Nat) (pos : Nat) : yp_token_type × Nat :=
  match byteAt src pos with
  | 126 | 42 | 36 | 63 | 33 | 64 | 47 | 92 | 59 | 44 | 46 | 61 | 58 | 60
  | 62 | 34 =>
    -- the special globals: tilde star dollar question bang at slash
    -- backslash semicolon comma dot equal colon less greater quote
    (.YP_TOKEN_GLOBAL_VARIABLE, 1)
  | 38 | 96 | 39 | 43 =>
    -- the back references: ampersand backquote quote plus
    (.YP_TOKEN_BACK_REFERENCE, 1)
  | 49 | 50 | 51 | 52 | 53 | 54 | 55 | 56 | 57 =>
    -- a digit 1-9 starts an nth-reference digit run
    (.YP_TOKEN_NTH_REFERENCE,
     1 + countWhile is_decimal_number_char (src.drop (pos + 1)))
  | _ =>
    if is_identifier_char (byteAt src pos) then
      (.YP_TOKEN_GLOBAL_VARIABLE,
       1 + countWhile is_identifier_char (src.drop (pos + 1)))
    else (.YP_TOKEN_INVALID, 0)

/-- The keyword table of `lex_identifier` (yarp.c), in source order: the
lexeme bytes and the keyword token kind.  `"defined?"` is handled by the
`!`/`?`-suffix branch, not by this table. -/
def kwPairs : List (List Nat × yp_token_type) := [
  ([95, 95, 69, 78, 67, 79, 68, 73, 78, 71, 95, 95], .YP_TOKEN_KEYWORD___ENCODING__),  -- "__ENCODING__"
  ([95, 95, 76, 73, 78, 69, 95, 95], .YP_TOKEN_KEYWORD___LINE__),  -- "__LINE__"
  ([95, 95, 70, 73, 76, 69, 95, 95], .YP_TOKEN_KEYWORD___FILE__),  -- "__FILE__"
  ([97, 108, 105, 97, 115], .YP_TOKEN_KEYWORD_ALIAS),  -- "alias"
  ([97, 110, 100], .YP_TOKEN_KEYWORD_AND),  -- "and"
  ([98, 101, 103, 105, 110], .YP_TOKEN_KEYWORD_BEGIN),  -- "begin"
  ([66, 69, 71, 73, 78], .YP_TOKEN_KEYWORD_BEGIN_UPCASE),  -- "BEGIN"
  ([98, 114, 101, 97, 107], .YP_TOKEN_KEYWORD_BREAK),  -- "break"
  ([99, 97, 115, 101], .YP_TOKEN_KEYWORD_CASE),  -- "case"
  ([99, 108, 97, 115, 115], .YP_TOKEN_KEYWORD_CLASS),  -- "class"
  ([100, 101, 102], .YP_TOKEN_KEYWORD_DEF),  -- "def"
  ([100, 111], .YP_TOKEN_KEYWORD_DO),  -- "do"
  ([101, 108, 115, 101], .YP_TOKEN_KEYWORD_ELSE),  -- "else"
  ([101, 108, 115, 105, 102], .YP_TOKEN_KEYWORD_ELSIF),  -- "elsif"
  ([101, 110, 100], .YP_TOKEN_KEYWORD_END),  -- "end"
  ([69, 78, 68], .YP_TOKEN_KEYWORD_END_UPCASE),  -- "END"
  ([101, 110, 115, 117, 114, 101], .YP_TOKEN_KEYWORD_ENSURE),  -- "ensure"
  ([102, 97, 108, 115, 101], .YP_TOKEN_KEYWORD_FALSE),  -- "false"
  ([102, 111, 114], .YP_TOKEN_KEYWORD_FOR),  -- "for"
  ([105, 102], .YP_TOKEN_KEYWORD_IF),  -- "if"
  ([105, 110], .YP_TOKEN_KEYWORD_IN),  -- "in"
  ([109, 111, 100, 117, 108, 101], .YP_TOKEN_KEYWORD_MODULE),  -- "module"
  ([110, 101, 120, 116], .YP_TOKEN_KEYWORD_NEXT),  -- "next"
  ([110, 105, 108], .YP_TOKEN_KEYWORD_NIL),  -- "nil"
  ([110, 111, 116], .YP_TOKEN_KEYWORD_NOT),  -- "not"
  ([111, 114], .YP_TOKEN_KEYWORD_OR),  -- "or"
  ([114, 101, 100, 111], .YP_TOKEN_KEYWORD_REDO),  -- "redo"
  ([114, 101, 115, 99, 117, 101], .YP_TOKEN_KEYWORD_RESCUE),  -- "rescue"
  ([114, 101, 116, 114, 121], .YP_TOKEN_KEYWORD_RETRY),  -- "retry"
  ([114, 101, 116, 117, 114, 110], .YP_TOKEN_KEYWORD_RETURN),  -- "return"
  ([115, 101, 108, 102], .YP_TOKEN_KEYWORD_SELF),  -- "self"
  ([115, 117, 112, 101, 114], .YP_TOKEN_KEYWORD_SUPER),  -- "super"
  ([116, 104, 101, 110], .YP_TOKEN_KEYWORD_THEN),  -- "then"
  ([116, 114, 117, 101], .YP_TOKEN_KEYWORD_TRUE),  -- "true"
  ([117, 110, 100, 101, 102], .YP_TOKEN_KEYWORD_UNDEF),  -- "undef"
  ([117, 110, 108, 101, 115, 115], .YP_TOKEN_KEYWORD_UNLESS),  -- "unless"
  ([117, 110, 116, 105, 108], .YP_TOKEN_KEYWORD_UNTIL),  -- "until"
  ([119, 104, 101, 110], .YP_TOKEN_KEYWORD_WHEN),  -- "when"
  ([119, 104, 105, 108, 101], .YP_TOKEN_KEYWORD_WHILE),  -- "while"
  ([121, 105, 101, 108, 100], .YP_TOKEN_KEYWORD_YIELD)  -- "yield"
]

/-- The KEYWORD macro cascade of `lex_identifier`: the first table entry
whose length equals `width` and whose bytes equal the token's lexeme. -/
def keywordMatch (src : List Nat) (start : Nat) (width : Nat) :
    Option yp_token_type :=
  kwPairs.findSome? fun p =>
    if width == p.1.length && strncmp_eq src start p.1 then some p.2 else none

/-- `lex_identifier` (yarp.c).  `start` is the token start; the dispatcher
has already consumed the first byte, so scanning resumes at `start + 1`.
Returns the token type and the full token width (so the new cursor is
`start + width`). -/
def lex_identifier (src : List Nat) (start : Nat) (prevType : yp_token_type) :
    yp_token_type × Nat :=
  let run := countWhile is_identifier_char (src.drop (start + 1))
  let pos1 := start + 1 + run
  let width := pos1 - start
  if decide (pos1 + 1 < src.length) && (byteAt src (pos1 + 1) != 61) &&
     (byteAt src pos1 == 33 || byteAt src pos1 == 63) then
    -- a '!' or '?' suffix whose next byte is not '=': consume it
    let width := width + 1
    if prevType != .YP_TOKEN_DOT && width == 8 &&
       strncmp_eq src start [100, 101, 102, 105, 110, 101, 100, 63] then
      -- "defined?"
      (.YP_TOKEN_KEYWORD_DEFINED, width)
    else (.YP_TOKEN_IDENTIFIER, width)
  else
    match (if prevType != .YP_TOKEN_DOT then keywordMatch src start width
           else none) with
    | some t => (t, width)
    | none =>
      -- constant iff the first byte is an ASCII uppercase letter
      if decide (65 ≤ byteAt src start) && decide (byteAt src start ≤ 90) then
        (.YP_TOKEN_CONSTANT, width)
      else (.YP_TOKEN_IDENTIFIER, width)

/-- Result of one call of a mode branch of `lex_token_type`: token type,
bytes consumed after the token start, and the new line counter and mode
stack.  The caller places the token at `[s, s + k)`. -/
structure LexRes where
  type : yp_token_type
  k : Nat
  lineno : Nat
  modes : lex_modes_t
deriving DecidableEq, BEq, Repr

/-- `unrecoverable` (yarp.c): the default error-recovery callback, installed
by `each_token` in all four slots of the handler table; it returns
`YP_TOKEN_EOF` without touching the parser. -/
def unrecoverable : yp_token_type := .YP_TOKEN_EOF

/-- Outcome of the content loops of the regexp and string modes:
`content k nl` returns a `STRING_CONTENT` of `k` bytes (`nl` newlines were
counted while scanning), `embexpr nl` consumes `#` and the brace and pushes
an embedded expression, `eob k nl` ran into `parser->end`. -/
inductive StrScanRes where
  | content (k nl : Nat)
  | embexpr (nl : Nat)
  | eob (k nl : Nat)
deriving DecidableEq, BEq, Repr

/-- The content loop of the regexp mode (yarp.c, YP_LEX_REGEXP case): stop at
the terminator; count newlines; at `#` followed by an opening brace either
return the accumulated content or (with no content) signal the interpolation
push; otherwise advance. -/
def regexpScan (t : Nat) : List Nat → Nat → Nat → StrScanRes
  | [], k, nl => .eob k nl
  | b :: rest, k, nl =>
    if b == t then .content k nl
    else
      let nl' := if b == 10 then nl + 1 else nl
      if b == 35 && byteAt rest 0 == 123 then  -- '#' then the opening brace
        if decide (0 < k) then .content k nl' else .embexpr nl'
      else regexpScan t rest (k + 1) nl'

/-- The content loop of the string mode (yarp.c, YP_LEX_STRING case).  Same
as the regexp loop except that the `#` check is gated on the mode's `interp`
flag; the `#@` and `#$` arms of the C switch break out without consuming, so
the `#` is treated as content exactly as in the default arm. -/
def stringScan (t : Nat) (interp : Bool) : List Nat → Nat → Nat → StrScanRes
  | [], k, nl => .eob k nl
  | b :: rest, k, nl =>
    if b == t then .content k nl
    else
      let nl' := if b == 10 then nl + 1 else nl
      if interp && b == 35 && byteAt rest 0 == 123 then
        if decide (0 < k) then .content k nl' else .embexpr nl'
      else stringScan t interp rest (k + 1) nl'

/-- Outcome of the word-list content loop (yarp.c, YP_LEX_LIST case):
whitespace hit after `k` bytes, terminator hit after `k` bytes, or end of
buffer after `k` bytes. -/
inductive ListScanRes where
  | ws (k : Nat)
  | term (k : Nat)
  | eob (k : Nat)
deriving DecidableEq, BEq, Repr

/-- The word-list content loop: whitespace is checked before the
terminator, exactly as in the source. -/
def listScan (t : Nat) : List Nat → ListScanRes
  | [] => .eob 0
  | b :: rest =>
    if is_whitespace_char b then .ws 0
    else if b == t then .term 0
    else
      match listScan t rest with
      | .ws k => .ws (k + 1)
      | .term k => .term (k + 1)
      | .eob k => .eob (k + 1)

/-- The line loop of the embdoc mode:
`while ((end < parser->end) && (*end++ != '\n'));` — number of bytes
consumed, including the newline when one is found before `parser->end`. -/
def embdocLine : List Nat → Nat
  | [] => 0
  | b :: rest => if b == 10 then 1 else embdocLine rest + 1

/-- The option letters consumed after the regexp terminator:
`e i m n s u x`. -/
def is_regexp_option_char (c : Nat) : Bool :=
  c == 101 || c == 105 || c == 109 || c == 110 || c == 115 || c == 117 ||
  c == 120

/-- The default/embexpr dispatcher of `lex_token_type` (yarp.c).  `s` is the
token start (the cursor after the whitespace skip); the dispatched byte is
`byteAt p.src s` (`*parser->current.end++`).  Returns the token type, the
bytes consumed from `s`, and the updated line counter and mode stack. -/
def lexDefault (p : yp_parser_t) (lm : yp_lex_mode) (s : Nat) : LexRes :=
  let src := p.src
  let prev := p.previous.type
  let L := p.lineno
  let M := p.lex_modes
  match byteAt src s with
  | 0 | 4 | 26 =>
    -- NUL, ^D, ^Z: the three end-of-script sentinels
    ⟨.YP_TOKEN_EOF, 1, L, M⟩
  | 35 =>
    -- '#': comment through the end of the line, not past NUL, then an
    -- optional trailing newline (consumed without a lineno increment)
    let k := countWhile (fun c => c != 10 && c != 0) (src.drop (s + 1))
    let k := if byteAt src (s + 1 + k) == 10 then k + 1 else k
    ⟨.YP_TOKEN_COMMENT, 1 + k, L, M⟩
  | 10 =>
    -- newline
    ⟨.YP_TOKEN_NEWLINE, 1, L + 1, M⟩
  | 44 => ⟨.YP_TOKEN_COMMA, 1, L, M⟩
  | 40 => ⟨.YP_TOKEN_PARENTHESIS_LEFT, 1, L, M⟩
  | 41 => ⟨.YP_TOKEN_PARENTHESIS_RIGHT, 1, L, M⟩
  | 59 => ⟨.YP_TOKEN_SEMICOLON, 1, L, M⟩
  | 91 =>
    -- '[' and the '[]' form after a dot
    if prev == .YP_TOKEN_DOT && byteAt src (s + 1) == 93 then
      ⟨.YP_TOKEN_BRACKET_LEFT_RIGHT, 2, L, M⟩
    else ⟨.YP_TOKEN_BRACKET_LEFT, 1, L, M⟩
  | 93 => ⟨.YP_TOKEN_BRACKET_RIGHT, 1, L, M⟩
  | 123 =>
    -- the opening brace; a lambda body opener after '->'
    if prev == .YP_TOKEN_MINUS_GREATER then ⟨.YP_TOKEN_LAMBDA_BEGIN, 1, L, M⟩
    else ⟨.YP_TOKEN_BRACE_LEFT, 1, L, M⟩
  | 125 =>
    -- the closing brace: inside an embedded expression it pops the mode
    if lm.mode == .YP_LEX_EMBEXPR then
      ⟨.YP_TOKEN_EMBEXPR_END, 1, L, pop_lex_mode M⟩
    else ⟨.YP_TOKEN_BRACE_RIGHT, 1, L, M⟩
  | 42 =>
    -- '*' '**' '**=' '*='
    if byteAt src (s + 1) == 42 then
      if byteAt src (s + 2) == 61 then ⟨.YP_TOKEN_STAR_STAR_EQUAL, 3, L, M⟩
      else ⟨.YP_TOKEN_STAR_STAR, 2, L, M⟩
    else if byteAt src (s + 1) == 61 then ⟨.YP_TOKEN_STAR_EQUAL, 2, L, M⟩
    else ⟨.YP_TOKEN_STAR, 1, L, M⟩
  | 33 =>
    -- '!' '!=' '!~' '!@'
    if byteAt src (s + 1) == 61 then ⟨.YP_TOKEN_BANG_EQUAL, 2, L, M⟩
    else if byteAt src (s + 1) == 126 then ⟨.YP_TOKEN_BANG_TILDE, 2, L, M⟩
    else if (prev == .YP_TOKEN_KEYWORD_DEF || prev == .YP_TOKEN_DOT) &&
            byteAt src (s + 1) == 64 then
      ⟨.YP_TOKEN_BANG_AT, 2, L, M⟩
    else ⟨.YP_TOKEN_BANG, 1, L, M⟩
  | 61 =>
    -- '=': the embdoc opener when the byte before the '=' is a newline
    -- (current.end[-2]; the out-of-bounds read at s = 0 is modelled as 0),
    -- otherwise '=>' '=~' '===' '==' '='
    if (if s == 0 then 0 else byteAt src (s - 1)) == 10 &&
       strncmp_eq src (s + 1) [98, 101, 103, 105, 110, 10] then
      -- "begin\n"
      ⟨.YP_TOKEN_EMBDOC_BEGIN, 7, L,
       push_lex_mode M ⟨.YP_LEX_EMBDOC, 0, false⟩⟩
    else if byteAt src (s + 1) == 62 then ⟨.YP_TOKEN_EQUAL_GREATER, 2, L, M⟩
    else if byteAt src (s + 1) == 126 then ⟨.YP_TOKEN_EQUAL_TILDE, 2, L, M⟩
    else if byteAt src (s + 1) == 61 then
      if byteAt src (s + 2) == 61 then ⟨.YP_TOKEN_EQUAL_EQUAL_EQUAL, 3, L, M⟩
      else ⟨.YP_TOKEN_EQUAL_EQUAL, 2, L, M⟩
    else ⟨.YP_TOKEN_EQUAL, 1, L, M⟩
  | 60 =>
    -- '<' '<<' '<<=' and the deliberately stubbed heredoc openers
    if byteAt src (s + 1) == 60 then
      if byteAt src (s + 2) == 61 then ⟨.YP_TOKEN_LESS_LESS_EQUAL, 3, L, M⟩
      else if byteAt src (s + 2) == 45 || byteAt src (s + 2) == 126 then
        -- '<<-' / '<<~': heredocs are not handled yet
        ⟨.YP_TOKEN_EOF, 3, L, M⟩
      else ⟨.YP_TOKEN_LESS_LESS, 2, L, M⟩
    else if byteAt src (s + 1) == 61 then
      if byteAt src (s + 2) == 62 then ⟨.YP_TOKEN_LESS_EQUAL_GREATER, 3, L, M⟩
      else ⟨.YP_TOKEN_LESS_EQUAL, 2, L, M⟩
    else ⟨.YP_TOKEN_LESS, 1, L, M⟩
  | 62 =>
    -- '>' '>>' '>>=' '>='
    if byteAt src (s + 1) == 62 then
      if byteAt src (s + 2) == 61 then
        ⟨.YP_TOKEN_GREATER_GREATER_EQUAL, 3, L, M⟩
      else ⟨.YP_TOKEN_GREATER_GREATER, 2, L, M⟩
    else if byteAt src (s + 1) == 61 then ⟨.YP_TOKEN_GREATER_EQUAL, 2, L, M⟩
    else ⟨.YP_TOKEN_GREATER, 1, L, M⟩
  | 34 =>
    -- double quote: interpolating string
    ⟨.YP_TOKEN_STRING_BEGIN, 1, L,
     push_lex_mode M ⟨.YP_LEX_STRING, 34, true⟩⟩
  | 96 =>
    -- backquote: xstring
    ⟨.YP_TOKEN_BACKTICK, 1, L, push_lex_mode M ⟨.YP_LEX_STRING, 96, true⟩⟩
  | 39 =>
    -- single quote: non-interpolating string
    ⟨.YP_TOKEN_STRING_BEGIN, 1, L,
     push_lex_mode M ⟨.YP_LEX_STRING, 39, false⟩⟩
  | 63 =>
    -- '?': a one-byte character literal when an identifier byte follows
    if is_identifier_char (byteAt src (s + 1)) then
      ⟨.YP_TOKEN_CHARACTER_LITERAL, 2, L, M⟩
    else ⟨.YP_TOKEN_QUESTION_MARK, 1, L, M⟩
  | 38 =>
    -- '&' '&&' '&&=' '&='
    if byteAt src (s + 1) == 38 then
      if byteAt src (s + 2) == 61 then
        ⟨.YP_TOKEN_AMPERSAND_AMPERSAND_EQUAL, 3, L, M⟩
      else ⟨.YP_TOKEN_AMPERSAND_AMPERSAND, 2, L, M⟩
    else if byteAt src (s + 1) == 61 then ⟨.YP_TOKEN_AMPERSAND_EQUAL, 2, L, M⟩
    else ⟨.YP_TOKEN_AMPERSAND, 1, L, M⟩
  | 124 =>
    -- '|' '||' '||=' '|='
    if byteAt src (s + 1) == 124 then
      if byteAt src (s + 2) == 61 then ⟨.YP_TOKEN_PIPE_PIPE_EQUAL, 3, L, M⟩
      else ⟨.YP_TOKEN_PIPE_PIPE, 2, L, M⟩
    else if byteAt src (s + 1) == 61 then ⟨.YP_TOKEN_PIPE_EQUAL, 2, L, M⟩
    else ⟨.YP_TOKEN_PIPE, 1, L, M⟩
  | 43 =>
    -- '+' '+=' '+@'
    if byteAt src (s + 1) == 61 then ⟨.YP_TOKEN_PLUS_EQUAL, 2, L, M⟩
    else if (prev == .YP_TOKEN_KEYWORD_DEF || prev == .YP_TOKEN_DOT) &&
            byteAt src (s + 1) == 64 then
      ⟨.YP_TOKEN_PLUS_AT, 2, L, M⟩
    else ⟨.YP_TOKEN_PLUS, 1, L, M⟩
  | 45 =>
    -- '-' '->' '-=' '-@'
    if byteAt src (s + 1) == 62 then ⟨.YP_TOKEN_MINUS_GREATER, 2, L, M⟩
    else if byteAt src (s + 1) == 61 then ⟨.YP_TOKEN_MINUS_EQUAL, 2, L, M⟩
    else if (prev == .YP_TOKEN_KEYWORD_DEF || prev == .YP_TOKEN_DOT) &&
            byteAt src (s + 1) == 64 then
      ⟨.YP_TOKEN_MINUS_AT, 2, L, M⟩
    else ⟨.YP_TOKEN_MINUS, 1, L, M⟩
  | 46 =>
    -- '.' '..' '...'
    if byteAt src (s + 1) != 46 then ⟨.YP_TOKEN_DOT, 1, L, M⟩
    else if byteAt src (s + 2) == 46 then ⟨.YP_TOKEN_DOT_DOT_DOT, 3, L, M⟩
    else ⟨.YP_TOKEN_DOT_DOT, 2, L, M⟩
  | 48 | 49 | 50 | 51 | 52 | 53 | 54 | 55 | 56 | 57 =>
    -- a digit: the numeric scanner, entered with the digit consumed
    let (t, d) := lex_numeric src (s + 1)
    ⟨t, 1 + d, L, M⟩
  | 58 =>
    -- ':' '::' or a symbol opener when an identifier byte follows
    if byteAt src (s + 1) == 58 then ⟨.YP_TOKEN_COLON_COLON, 2, L, M⟩
    else if is_identifier_char (byteAt src (s + 1)) then
      ⟨.YP_TOKEN_SYMBOL_BEGIN, 1, L,
       push_lex_mode M ⟨.YP_LEX_SYMBOL, 0, false⟩⟩
    else ⟨.YP_TOKEN_COLON, 1, L, M⟩
  | 47 =>
    -- '/' '/=' or a regexp opener; a space after the slash means division.
    -- The regexp mode record leaves `interp` designated-initializer zeroed.
    if byteAt src (s + 1) == 61 then ⟨.YP_TOKEN_SLASH_EQUAL, 2, L, M⟩
    else if byteAt src (s + 1) == 32 then ⟨.YP_TOKEN_SLASH, 1, L, M⟩
    else
      ⟨.YP_TOKEN_REGEXP_BEGIN, 1, L,
       push_lex_mode M ⟨.YP_LEX_REGEXP, 47, false⟩⟩
  | 94 =>
    -- '^' '^='
    if byteAt src (s + 1) == 61 then ⟨.YP_TOKEN_CARET_EQUAL, 2, L, M⟩
    else ⟨.YP_TOKEN_CARET, 1, L, M⟩
  | 126 =>
    -- '~' '~@'
    if (prev == .YP_TOKEN_KEYWORD_DEF || prev == .YP_TOKEN_DOT) &&
       byteAt src (s + 1) == 64 then
      ⟨.YP_TOKEN_TILDE_AT, 2, L, M⟩
    else ⟨.YP_TOKEN_TILDE, 1, L, M⟩
  | 92 =>
    -- backslash: line continuations are deferred
    ⟨.YP_TOKEN_INVALID, 1, L, M⟩
  | 37 =>
    -- '%': percent-equal or the percent literal openers; the type letter and
    -- the raw delimiter byte are both consumed, the delimiter-pairing rule
    -- computes the terminator
    match byteAt src (s + 1) with
    | 61 => ⟨.YP_TOKEN_PERCENT_EQUAL, 2, L, M⟩
    | 105 =>  -- 'i'
      ⟨.YP_TOKEN_PERCENT_LOWER_I, 3, L,
       push_lex_mode M ⟨.YP_LEX_LIST, terminator (byteAt src (s + 2)), false⟩⟩
    | 73 =>   -- 'I'
      ⟨.YP_TOKEN_PERCENT_UPPER_I, 3, L,
       push_lex_mode M ⟨.YP_LEX_LIST, terminator (byteAt src (s + 2)), true⟩⟩
    | 114 =>  -- 'r'
      ⟨.YP_TOKEN_REGEXP_BEGIN, 3, L,
       push_lex_mode M ⟨.YP_LEX_REGEXP, terminator (byteAt src (s + 2)), true⟩⟩
    | 113 =>  -- 'q'
      ⟨.YP_TOKEN_STRING_BEGIN, 3, L,
       push_lex_mode M ⟨.YP_LEX_STRING, terminator (byteAt src (s + 2)), false⟩⟩
    | 81 =>   -- 'Q'
      ⟨.YP_TOKEN_STRING_BEGIN, 3, L,
       push_lex_mode M ⟨.YP_LEX_STRING, terminator (byteAt src (s + 2)), true⟩⟩
    | 119 =>  -- 'w'
      ⟨.YP_TOKEN_PERCENT_LOWER_W, 3, L,
       push_lex_mode M ⟨.YP_LEX_LIST, terminator (byteAt src (s + 2)), false⟩⟩
    | 87 =>   -- 'W'
      ⟨.YP_TOKEN_PERCENT_UPPER_W, 3, L,
       push_lex_mode M ⟨.YP_LEX_LIST, terminator (byteAt src (s + 2)), true⟩⟩
    | 120 =>  -- 'x'
      ⟨.YP_TOKEN_PERCENT_LOWER_X, 3, L,
       push_lex_mode M ⟨.YP_LEX_STRING, terminator (byteAt src (s + 2)), true⟩⟩
    | _ => ⟨.YP_TOKEN_PERCENT, 1, L, M⟩
  | 36 =>
    -- '$': the global-variable scanner
    let (t, d) := lex_global_variable src (s + 1)
    ⟨t, 1 + d, L, M⟩
  | 64 =>
    -- '@': instance or class variable
    let j := if byteAt src (s + 1) == 64 then 1 else 0
    let type := if j == 1 then yp_token_type.YP_TOKEN_CLASS_VARIABLE
                else yp_token_type.YP_TOKEN_INSTANCE_VARIABLE
    if is_identifier_start_char (byteAt src (s + 1 + j)) then
      ⟨type, 1 + j + 1 + countWhile is_identifier_char (src.drop (s + 1 + j + 1)),
       L, M⟩
    else ⟨.YP_TOKEN_INVALID, 1 + j, L, M⟩
  | _ =>
    -- anything else: an identifier when it starts like one, else invalid;
    -- then label detection (':' not followed by another ':')
    if !is_identifier_start_char (byteAt src s) then ⟨.YP_TOKEN_INVALID, 1, L, M⟩
    else
      let (t, w) := lex_identifier src s prev
      if byteAt src (s + w) == 58 && byteAt src (s + w + 1) != 58 then
        ⟨.YP_TOKEN_LABEL, w + 1, L, M⟩
      else ⟨t, w, L, M⟩

/-- The embdoc branch of `lex_token_type` (yarp.c, YP_LEX_EMBDOC case). -/
def lexEmbDoc (p : yp_parser_t) (s : Nat) : LexRes :=
  if strncmp_eq p.src s [61, 101, 110, 100, 10] then
    -- "=end\n"
    ⟨.YP_TOKEN_EMBDOC_END, 5, p.lineno, pop_lex_mode p.lex_modes⟩
  else
    let k := embdocLine (p.src.drop s)
    if decide (s + k < p.src.length) then
      ⟨.YP_TOKEN_EMBDOC_LINE, k, p.lineno + 1, p.lex_modes⟩
    else
      -- unterminated_embdoc
      ⟨unrecoverable, k, p.lineno, p.lex_modes⟩

/-- The word-list branch of `lex_token_type` (yarp.c, YP_LEX_LIST case). -/
def lexList (p : yp_parser_t) (lm : yp_lex_mode) (s : Nat) : LexRes :=
  let src := p.src
  if is_whitespace_char (byteAt src s) then
    -- a whitespace run becomes a separator; newlines advance the counter
    let run := countWhile is_whitespace_char (src.drop s)
    ⟨.YP_TOKEN_WORDS_SEP, run,
     p.lineno + countNewlines ((src.drop s).take run), p.lex_modes⟩
  else
    match listScan lm.term (src.drop s) with
    | .ws k => ⟨.YP_TOKEN_STRING_CONTENT, k, p.lineno, p.lex_modes⟩
    | .term k =>
      if decide (0 < k) then
        ⟨.YP_TOKEN_STRING_CONTENT, k, p.lineno, p.lex_modes⟩
      else
        ⟨.YP_TOKEN_STRING_END, 1, p.lineno, pop_lex_mode p.lex_modes⟩
    | .eob k =>
      -- unterminated_list
      ⟨unrecoverable, k, p.lineno, p.lex_modes⟩

/-- The regexp branch of `lex_token_type` (yarp.c, YP_LEX_REGEXP case). -/
def lexRegexp (p : yp_parser_t) (lm : yp_lex_mode) (s : Nat) : LexRes :=
  let src := p.src
  if byteAt src s == lm.term then
    -- the terminator, then the option-letter run
    ⟨.YP_TOKEN_REGEXP_END,
     1 + countWhile is_regexp_option_char (src.drop (s + 1)),
     p.lineno, pop_lex_mode p.lex_modes⟩
  else
    match regexpScan lm.term (src.drop s) 0 0 with
    | .content k nl => ⟨.YP_TOKEN_STRING_CONTENT, k, p.lineno + nl, p.lex_modes⟩
    | .embexpr nl =>
      ⟨.YP_TOKEN_EMBEXPR_BEGIN, 2, p.lineno + nl,
       push_lex_mode p.lex_modes ⟨.YP_LEX_EMBEXPR, 0, false⟩⟩
    | .eob k nl =>
      -- unterminated_regexp
      ⟨unrecoverable, k, p.lineno + nl, p.lex_modes⟩

/-- The string branch of `lex_token_type` (yarp.c, YP_LEX_STRING case). -/
def lexString (p : yp_parser_t) (lm : yp_lex_mode) (s : Nat) : LexRes :=
  let src := p.src
  if byteAt src s == lm.term then
    ⟨.YP_TOKEN_STRING_END, 1, p.lineno, pop_lex_mode p.lex_modes⟩
  else
    match stringScan lm.term lm.interp (src.drop s) 0 0 with
    | .content k nl => ⟨.YP_TOKEN_STRING_CONTENT, k, p.lineno + nl, p.lex_modes⟩
    | .embexpr nl =>
      ⟨.YP_TOKEN_EMBEXPR_BEGIN, 2, p.lineno + nl,
       push_lex_mode p.lex_modes ⟨.YP_LEX_EMBEXPR, 0, false⟩⟩
    | .eob k nl =>
      -- unterminated_string
      ⟨unrecoverable, k, p.lineno + nl, p.lex_modes⟩

/-- The symbol branch of `lex_token_type` (yarp.c, YP_LEX_SYMBOL case):
`if (parser->current.end < parser->end && is_identifier_start_char(parser->current.end++))`
pops the mode and scans an identifier (an `=` directly after it collapses the
kind to IDENTIFIER); otherwise the byte — when there was one — has been
consumed and the call returns INVALID without popping. -/
def lexSymbol (p : yp_parser_t) (s : Nat) : LexRes :=
  if decide (s < p.src.length) then
    if is_identifier_start_char (byteAt p.src s) then
      let modes := pop_lex_mode p.lex_modes
      let (t, w) := lex_identifier p.src s p.previous.type
      if byteAt p.src (s + w) == 61 then
        ⟨.YP_TOKEN_IDENTIFIER, w + 1, p.lineno, modes⟩
      else ⟨t, w, p.lineno, modes⟩
    else ⟨.YP_TOKEN_INVALID, 1, p.lineno, p.lex_modes⟩
  else ⟨.YP_TOKEN_INVALID, 0, p.lineno, p.lex_modes⟩

/-- Where the next token starts: the default and embexpr modes first skip
non-newline whitespace and then set `current.start`; every other mode sets
`current.start` to the current cursor. -/
def tokenStartOf (p : yp_parser_t) (lm : yp_lex_mode) : Nat :=
  match lm.mode with
  | .YP_LEX_DEFAULT | .YP_LEX_EMBEXPR =>
    p.current.endP +
      countWhile is_non_newline_whitespace_char (p.src.drop p.current.endP)
  | _ => p.current.endP

/-- `lex_token_type` (yarp.c): dispatch on the current lex mode.  Returns
`none` when the current mode cell is the uninitialized spill node (reading
it is undefined behaviour in the C program); otherwise the token type and
the parser with `current.start`, `current.end`, `lineno` and the mode stack
updated (the token's type itself is written by `yp_lex_token`). -/
def lex_token_type (p : yp_parser_t) : Option (yp_token_type × yp_parser_t) :=
  match p.lex_modes.current with
  | .uninit => none
  | .known lm =>
    let s := tokenStartOf p lm
    let o : LexRes :=
      match lm.mode with
      | .YP_LEX_DEFAULT | .YP_LEX_EMBEXPR => lexDefault p lm s
      | .YP_LEX_EMBDOC => lexEmbDoc p s
      | .YP_LEX_LIST => lexList p lm s
      | .YP_LEX_REGEXP => lexRegexp p lm s
      | .YP_LEX_STRING => lexString p lm s
      | .YP_LEX_SYMBOL => lexSymbol p s
    some (o.type,
      { p with current := ⟨p.current.type, s, s + o.k⟩,
               lineno := o.lineno, lex_modes := o.modes })

/-- `yp_lex_token` (yarp.c): rotate `previous ← current`, run the dispatcher,
and write the returned type into `current`. -/
def yp_lex_token (p : yp_parser_t) : Option yp_parser_t :=
  let p1 := { p with previous := p.current }
  match lex_token_type p1 with
  | none => none
  | some (t, p2) =>
    some { p2 with current := ⟨t, p2.current.start, p2.current.endP⟩ }

/-- `yp_parser_init` (yarp.c): Default-only mode stack (the four inline
slots are zero-initialized, the first one to `YP_LEX_DEFAULT`), both tokens
zero-initialized (`YP_TOKEN_EOF` is enum value 0) at offset 0, line
counter 1. -/
def yp_parser_init (source : List Nat) : yp_parser_t :=
  { lex_modes :=
      { index := 0,
        stack := [zero_lex_mode, zero_lex_mode, zero_lex_mode, zero_lex_mode],
        current := .known zero_lex_mode },
    src := source,
    previous := ⟨.YP_TOKEN_EOF, 0, 0⟩,
    current := ⟨.YP_TOKEN_EOF, 0, 0⟩,
    lineno := 1 }

/-- `n` successive `yp_lex_token` calls from a parser state; `none` once a
call would read the uninitialized spill cell. -/
def lexIter (p : yp_parser_t) : Nat → Option yp_parser_t
  | 0 => some p
  | n + 1 =>
    match lexIter p n with
    | some q => yp_lex_token q
    | none => none

/-- The `current` token after the `n`-th `yp_lex_token` call on a fresh
parser over `source` (the host drains tokens exactly this way). -/
def tokenAt (source : List Nat) (n : Nat) : Option yp_token :=
  (lexIter (yp_parser_init source) n).map (fun q => q.current)

/-! ### Concrete inputs and states used by the claims -/

/-- `":9"`: a symbol opener whose next byte is an identifier character but
not an identifier-start character. -/
def srcC1 : List Nat := [58, 57]

/-- The state the lexer is absorbed into on `srcC1` after four calls. -/
def stuckC1 : yp_parser_t :=
  { lex_modes :=
      { index := 1,
        stack := [zero_lex_mode, ⟨.YP_LEX_SYMBOL, 0, false⟩, zero_lex_mode,
                  zero_lex_mode],
        current := .known ⟨.YP_LEX_SYMBOL, 0, false⟩ },
    src := srcC1,
    previous := ⟨.YP_TOKEN_INVALID, 2, 2⟩,
    current := ⟨.YP_TOKEN_INVALID, 2, 2⟩,
    lineno := 1 }

/-- The double-quoted string with one interpolated identifier: 8 content
bytes, quote a hash brace b brace c quote; with the NUL sentinel at `buf[8]`
the buffer of the data model spans 9 bytes. -/
def srcC2 : List Nat := [34, 97, 35, 123, 98, 125, 99, 34]

/-- Three nested interpolating string openers: quote hash brace, three
times.  Lexing it performs a fourth mode push, past the inline capacity. -/
def srcC3 : List Nat := [34, 35, 123, 34, 35, 123, 34, 35, 123]

/-- A bare slash regexp whose body opens an interpolation: slash hash
brace. -/
def srcC4 : List Nat := [47, 35, 123]

/-- A parser in string mode with `interp = false` (the state reached after
one call on a single-quoted string input `[39, 97, 39]`). -/
def pC4s : yp_parser_t :=
  { lex_modes :=
      { index := 1,
        stack := [zero_lex_mode, ⟨.YP_LEX_STRING, 39, false⟩, zero_lex_mode,
                  zero_lex_mode],
        current := .known ⟨.YP_LEX_STRING, 39, false⟩ },
    src := [39, 97, 39],
    previous := ⟨.YP_TOKEN_STRING_BEGIN, 0, 1⟩,
    current := ⟨.YP_TOKEN_STRING_BEGIN, 0, 1⟩,
    lineno := 1 }

/-- A parser in word-list mode (the state reached after one call on the
input `[37, 119, 91, 97, 93]`, a percent-w list). -/
def pC4l : yp_parser_t :=
  { lex_modes :=
      { index := 1,
        stack := [zero_lex_mode, ⟨.YP_LEX_LIST, 93, false⟩, zero_lex_mode,
                  zero_lex_mode],
        current := .known ⟨.YP_LEX_LIST, 93, false⟩ },
    src := [37, 119, 91, 97, 93],
    previous := ⟨.YP_TOKEN_PERCENT_LOWER_W, 0, 3⟩,
    current := ⟨.YP_TOKEN_PERCENT_LOWER_W, 0, 3⟩,
    lineno := 1 }

/-- A parser in symbol mode at an identifier-start byte (the state reached
after one call on `[58, 97]`, a colon then the letter a). -/
def pC5w : yp_parser_t :=
  { lex_modes :=
      { index := 1,
        stack := [zero_lex_mode, ⟨.YP_LEX_SYMBOL, 0, false⟩, zero_lex_mode,
                  zero_lex_mode],
        current := .known ⟨.YP_LEX_SYMBOL, 0, false⟩ },
    src := [58, 97],
    previous := ⟨.YP_TOKEN_SYMBOL_BEGIN, 0, 1⟩,
    current := ⟨.YP_TOKEN_SYMBOL_BEGIN, 0, 1⟩,
    lineno := 1 }

/-- "foo." as bytes, the prefix of the context-sensitivity inputs. -/
def fooDot : List Nat := [102, 111, 111, 46]

/-- The per-keyword check of the context-sensitivity property: lexing
`"foo." ++ w` yields IDENTIFIER "foo", DOT, then an IDENTIFIER spanning
exactly `w`, then EOF; and lexing `w` alone yields the keyword kind `t`. -/
def c6check (w : List Nat) (t : yp_token_type) : Bool :=
  (tokenAt (fooDot ++ w) 1 == some ⟨.YP_TOKEN_IDENTIFIER, 0, 3⟩) &&
  (tokenAt (fooDot ++ w) 2 == some ⟨.YP_TOKEN_DOT, 3, 4⟩) &&
  (tokenAt (fooDot ++ w) 3 == some ⟨.YP_TOKEN_IDENTIFIER, 4, 4 + w.length⟩) &&
  (tokenAt (fooDot ++ w) 4 ==
    some ⟨.YP_TOKEN_EOF, 4 + w.length, 4 + w.length + 1⟩) &&
  (tokenAt w 1 == some ⟨t, 0, w.length⟩)

/-- "BEGIN" and "END" as bytes: the two keywords whose lexemes begin with an
ASCII uppercase letter. -/
def kwBEGIN : List Nat := [66, 69, 71, 73, 78]

/-- see `kwBEGIN`. -/
def kwEND : List Nat := [69, 78, 68]

/-- `"#x\n"`: a comment whose trailing newline is consumed. -/
def srcC9 : List Nat := [35, 120, 10]

/-- newline, `=begin`, newline, `ab`, newline, `=end`, newline, `c`: an
embedded documentation block with one body line, then an identifier. -/
def srcC9doc : List Nat :=
  [10, 61, 98, 101, 103, 105, 110, 10, 97, 98, 10, 61, 101, 110, 100, 10, 99]

/-- A percent-w list containing a newline separator. -/
def srcC9list : List Nat := [37, 119, 91, 97, 10, 98, 93]

/-- A double-quoted string containing a newline. -/
def srcC9str : List Nat := [34, 97, 10, 98, 34]

/-- A parser in embdoc mode whose remaining buffer is one documentation line
whose newline is the last byte (`"d\n"`). -/
def pC10w : yp_parser_t :=
  { lex_modes :=
      { index := 1,
        stack := [zero_lex_mode, ⟨.YP_LEX_EMBDOC, 0, false⟩, zero_lex_mode,
                  zero_lex_mode],
        current := .known ⟨.YP_LEX_EMBDOC, 0, false⟩ },
    src := [100, 10],
    previous := ⟨.YP_TOKEN_EMBDOC_BEGIN, 0, 0⟩,
    current := ⟨.YP_TOKEN_EMBDOC_BEGIN, 0, 0⟩,
    lineno := 1 }

/-! ### Helper lemmas -/

/-- Every mode starts the next token at or after the current cursor. -/
theorem le_tokenStartOf (p : yp_parser_t) (lm : yp_lex_mode) :
    p.current.endP ≤ tokenStartOf p lm := by
  unfold tokenStartOf
  cases lm.mode <;> simp

/-- A string-mode content scan with interpolation disabled never signals the
interpolation push. -/
theorem stringScan_no_embexpr (t : Nat) :
    ∀ (l : List Nat) (k nl nl0 : Nat),
      stringScan t false l k nl ≠ StrScanRes.embexpr nl0 := by
  intro l
  induction l with
  | nil => intro k nl nl0; simp [stringScan]
  | cons b rest ih =>
    intro k nl nl0
    unfold stringScan
    by_cases hb : (b == t) = true
    · simp [hb]
    · simp only [hb, Bool.false_eq_true, if_false, Bool.false_and, if_neg]
      exact ih (k + 1) _ nl0

/-- What one successful `lex_token_type` call does to the current token's
offsets: the new start is at or after the old cursor, and at or before the
new cursor. -/
theorem lex_token_type_bounds (p : yp_parser_t) (t : yp_token_type)
    (p' : yp_parser_t) (h : lex_token_type p = some (t, p')) :
    p.current.endP ≤ p'.current.start ∧ p'.current.start ≤ p'.current.endP := by
  unfold lex_token_type at h
  cases hc : p.lex_modes.current with
  | uninit => rw [hc] at h; exact absurd h (by simp)
  | known lm =>
    rw [hc] at h
    simp only [Option.some.injEq, Prod.mk.injEq] at h
    obtain ⟨-, hp⟩ := h
    subst hp
    exact ⟨le_tokenStartOf p lm, Nat.le_add_right _ _⟩

/-- `yp_lex_token` version of `lex_token_type_bounds`. -/
theorem yp_lex_token_bounds (q q' : yp_parser_t) (h : yp_lex_token q = some q') :
    q.current.endP ≤ q'.current.start ∧ q'.current.start ≤ q'.current.endP := by
  simp only [yp_lex_token] at h
  split at h
  · exact absurd h (by simp)
  · rename_i t p2 hs
    simp only [Option.some.injEq] at h
    subst h
    exact lex_token_type_bounds { q with previous := q.current } t p2 hs

/-- Along any run of the lexer the current token is well-formed:
`start ≤ end`. -/
theorem lexIter_wf (source : List Nat) :
    ∀ (n : Nat) (q : yp_parser_t),
      lexIter (yp_parser_init source) n = some q →
      q.current.start ≤ q.current.endP := by
  intro n
  induction n with
  | zero =>
    intro q h
    simp only [lexIter, Option.some.injEq] at h
    subst h
    exact Nat.le_refl _
  | succ m ih =>
    intro q h
    unfold lexIter at h
    cases hm : lexIter (yp_parser_init source) m with
    | none => rw [hm] at h; exact absurd h (by simp)
    | some q0 =>
      rw [hm] at h
      exact (yp_lex_token_bounds q0 q h).2

/-- Four calls on `srcC1` reach `stuckC1`. -/
theorem lexIter_srcC1_four : lexIter (yp_parser_init srcC1) 4 = some stuckC1 := by
  decide

/-- `stuckC1` is a fixpoint of `yp_lex_token`: the symbol branch finds the
cursor at `parser->end`, returns `YP_TOKEN_INVALID` without advancing and
without popping the symbol mode. -/
theorem stuckC1_fixpoint : yp_lex_token stuckC1 = some stuckC1 := by decide

/-- From the fourth call on, the state never changes. -/
theorem lexIter_srcC1_stuck (m : Nat) :
    lexIter (yp_parser_init srcC1) (m + 4) = some stuckC1 := by
  induction m with
  | zero => exact lexIter_srcC1_four
  | succ k ih =>
    show lexIter (yp_parser_init srcC1) (k + 4 + 1) = some stuckC1
    unfold lexIter
    rw [ih]
    exact stuckC1_fixpoint

/-! ### The claims -/

/-- C1: on the input `":9"` repeated calls to `yp_lex_token` never return
`YP_TOKEN_EOF`: the first call returns `SYMBOL_BEGIN`, and every later call
returns `INVALID` — the symbol branch consumes the digit without popping the
mode and then sits at `parser->end` forever.  This refutes the claim that
every input eventually reaches EOF (and with it the host's drain loop
terminating); the spec's forward-progress guarantee for malformed tokens is
the stated intent. -/
theorem C1_never_eof :
    (lexIter (yp_parser_init srcC1) 1).map (fun q => q.current.type) =
      some .YP_TOKEN_SYMBOL_BEGIN ∧
    ∀ n : Nat,
      (lexIter (yp_parser_init srcC1) (n + 2)).map (fun q => q.current.type) =
        some .YP_TOKEN_INVALID := by
  refine ⟨by decide, ?_⟩
  intro n
  match n with
  | 0 => decide
  | 1 => decide
  | m + 2 =>
    have h := lexIter_srcC1_stuck m
    show (lexIter (yp_parser_init srcC1) (m + 4)).map (fun q => q.current.type) =
      some .YP_TOKEN_INVALID
    rw [h]
    decide

/-- C2: the token stream of the double-quoted input with one interpolated
identifier is STRING_BEGIN, STRING_CONTENT "a", EMBEXPR_BEGIN (the two
opener bytes consumed on their own call), IDENTIFIER "b", EMBEXPR_END,
STRING_CONTENT "c", STRING_END, EOF; after the third call the embedded
expression mode is on top of the stack. -/
theorem C2_interpolated_string_trace :
    tokenAt srcC2 1 = some ⟨.YP_TOKEN_STRING_BEGIN, 0, 1⟩ ∧
    tokenAt srcC2 2 = some ⟨.YP_TOKEN_STRING_CONTENT, 1, 2⟩ ∧
    (srcC2.drop 1).take 1 = [97] ∧
    tokenAt srcC2 3 = some ⟨.YP_TOKEN_EMBEXPR_BEGIN, 2, 4⟩ ∧
    tokenAt srcC2 4 = some ⟨.YP_TOKEN_IDENTIFIER, 4, 5⟩ ∧
    (srcC2.drop 4).take 1 = [98] ∧
    tokenAt srcC2 5 = some ⟨.YP_TOKEN_EMBEXPR_END, 5, 6⟩ ∧
    tokenAt srcC2 6 = some ⟨.YP_TOKEN_STRING_CONTENT, 6, 7⟩ ∧
    (srcC2.drop 6).take 1 = [99] ∧
    tokenAt srcC2 7 = some ⟨.YP_TOKEN_STRING_END, 7, 8⟩ ∧
    tokenAt srcC2 8 = some ⟨.YP_TOKEN_EOF, 8, 9⟩ ∧
    (lexIter (yp_parser_init srcC2) 3).map (fun q => q.lex_modes.current) =
      some (.known ⟨.YP_LEX_EMBEXPR, 0, false⟩) := by
  decide

/-- C3: the fourth mode push on `srcC3` moves the index past the inline
capacity; `push_lex_mode` mallocs the spill node but never stores the
pushed record into it, so the stack top after the push is the uninitialized
cell, not the pushed embedded-expression record, and the next call would
read uninitialized memory (modelled as `none`). -/
theorem C3_spill_uninitialized :
    (lexIter (yp_parser_init srcC3) 3).map
        (fun q => (q.current.type, q.lex_modes.index, q.lex_modes.current)) =
      some (.YP_TOKEN_STRING_BEGIN, 3, .known ⟨.YP_LEX_STRING, 34, true⟩) ∧
    (lexIter (yp_parser_init srcC3) 4).map
        (fun q => (q.current.type, q.lex_modes.index, q.lex_modes.current)) =
      some (.YP_TOKEN_EMBEXPR_BEGIN, 4, .uninit) ∧
    (((lexIter (yp_parser_init srcC3) 4).map (fun q => q.lex_modes.current)) ==
      some (.known ⟨.YP_LEX_EMBEXPR, 0, false⟩)) = false ∧
    lexIter (yp_parser_init srcC3) 5 = none := by
  decide

/-- C4 counterexample: a regexp opened by a bare slash pushes a mode whose
`interp` flag is false (designated-initializer zero), yet the very next call
recognizes the un-consumed interpolation opener and returns
`EMBEXPR_BEGIN` — the regexp content loop never consults the flag.  This
refutes the claim that a false flag on top of the stack prevents
`EMBEXPR_BEGIN` from being emitted. -/
theorem C4_cex_regexp_ignores_flag :
    (lexIter (yp_parser_init srcC4) 1).map
        (fun q => (q.current.type, q.lex_modes.current)) =
      some (.YP_TOKEN_REGEXP_BEGIN, .known ⟨.YP_LEX_REGEXP, 47, false⟩) ∧
    (lexIter (yp_parser_init srcC4) 2).map (fun q => q.current.type) =
      some .YP_TOKEN_EMBEXPR_BEGIN := by
  decide

/-- C4 (amended): only the string mode consults `allow_interpolation`: with
string mode on top and the flag false no call returns `EMBEXPR_BEGIN`; with
list mode on top no call ever returns `EMBEXPR_BEGIN` (whatever the flag);
and regexp mode recognizes the interpolation opener even when its flag is
false (the bare-slash regexp of `srcC4`). -/
theorem C4_interp_gating :
    (∀ (p : yp_parser_t) (lm : yp_lex_mode) (t : yp_token_type) (p' : yp_parser_t),
      p.lex_modes.current = .known lm → lm.mode = .YP_LEX_STRING →
      lm.interp = false → lex_token_type p = some (t, p') →
      (t == .YP_TOKEN_EMBEXPR_BEGIN) = false) ∧
    (∀ (p : yp_parser_t) (lm : yp_lex_mode) (t : yp_token_type) (p' : yp_parser_t),
      p.lex_modes.current = .known lm → lm.mode = .YP_LEX_LIST →
      lex_token_type p = some (t, p') →
      (t == .YP_TOKEN_EMBEXPR_BEGIN) = false) ∧
    (lexIter (yp_parser_init srcC4) 2).map (fun q => q.current.type) =
      some .YP_TOKEN_EMBEXPR_BEGIN := by
  refine ⟨?_, ?_, by decide⟩
  · intro p lm t p' hc hm hi h
    unfold lex_token_type at h
    rw [hc] at h
    simp only [hm] at h
    simp only [Option.some.injEq, Prod.mk.injEq] at h
    obtain ⟨ht, -⟩ := h
    subst ht
    unfold lexString
    rw [hi]
    by_cases hb : (byteAt p.src (tokenStartOf p lm) == lm.term) = true
    · simp only [hb, if_true]
      rfl
    · simp only [hb, if_false, Bool.false_eq_true]
      rcases hscan : stringScan lm.term false
          (List.drop (tokenStartOf p lm) p.src) 0 0 with ⟨k, nl⟩ | ⟨nl⟩ | ⟨k, nl⟩
      · rfl
      · exact absurd hscan (stringScan_no_embexpr _ _ _ _ _)
      · rfl
  · intro p lm t p' hc hm h
    unfold lex_token_type at h
    rw [hc] at h
    simp only [hm] at h
    simp only [Option.some.injEq, Prod.mk.injEq] at h
    obtain ⟨ht, -⟩ := h
    subst ht
    unfold lexList
    by_cases hw : is_whitespace_char (byteAt p.src (tokenStartOf p lm)) = true
    · simp only [hw, if_true]
      rfl
    · simp only [hw, if_false, Bool.false_eq_true]
      rcases hscan : listScan lm.term
          (List.drop (tokenStartOf p lm) p.src) with ⟨k⟩ | ⟨k⟩ | ⟨k⟩
      · rfl
      · by_cases hk : decide (0 < k) = true
        · simp only [hk, if_true]
          rfl
        · simp only [hk, if_false, Bool.false_eq_true]
          rfl
      · rfl

/-- Witness for `C4_interp_gating`: its string part applied at `pC4s`
(string mode, `interp = false`) and its list part at `pC4l`, all hypotheses
discharged by computation. -/
theorem C4_interp_gating_witness :
    ((yp_token_type.YP_TOKEN_STRING_CONTENT ==
        yp_token_type.YP_TOKEN_EMBEXPR_BEGIN) = false) ∧
    ((yp_token_type.YP_TOKEN_STRING_CONTENT ==
        yp_token_type.YP_TOKEN_EMBEXPR_BEGIN) = false) :=
  ⟨C4_interp_gating.1 pC4s ⟨.YP_LEX_STRING, 39, false⟩
      .YP_TOKEN_STRING_CONTENT
      { pC4s with current := ⟨.YP_TOKEN_STRING_BEGIN, 1, 2⟩ }
      rfl rfl rfl (by decide),
   C4_interp_gating.2.1 pC4l ⟨.YP_LEX_LIST, 93, false⟩
      .YP_TOKEN_STRING_CONTENT
      { pC4l with current := ⟨.YP_TOKEN_PERCENT_LOWER_W, 3, 4⟩ }
      rfl rfl (by decide)⟩

/-- C5 counterexample: on `":9"` the second call enters symbol mode at a
byte that is not an identifier start, returns `INVALID`, and leaves the
symbol mode on top of the stack — the pop is not unconditional. -/
theorem C5_cex_symbol_not_popped :
    (lexIter (yp_parser_init srcC1) 2).map
        (fun q => (q.current.type, q.lex_modes.index, q.lex_modes.current)) =
      some (.YP_TOKEN_INVALID, 1, .known ⟨.YP_LEX_SYMBOL, 0, false⟩) ∧
    (((lexIter (yp_parser_init srcC1) 2).map (fun q => q.lex_modes.current)) ==
      some (.known zero_lex_mode)) = false := by
  decide

/-- C5 (amended): with symbol mode on top, the mode is popped exactly when
the cursor is before `parser->end` and rests on an identifier-start byte;
otherwise the call returns `INVALID` and the mode stack is untouched. -/
theorem C5_symbol_pop_conditional :
    ∀ (p : yp_parser_t) (lm : yp_lex_mode) (t : yp_token_type) (p' : yp_parser_t),
      p.lex_modes.current = .known lm → lm.mode = .YP_LEX_SYMBOL →
      lex_token_type p = some (t, p') →
      ((decide (p.current.endP < p.src.length) &&
          is_identifier_start_char (byteAt p.src p.current.endP)) = true →
        p'.lex_modes = pop_lex_mode p.lex_modes) ∧
      ((decide (p.current.endP < p.src.length) &&
          is_identifier_start_char (byteAt p.src p.current.endP)) = false →
        t = .YP_TOKEN_INVALID ∧ p'.lex_modes = p.lex_modes) := by
  intro p lm t p' hc hm h
  unfold lex_token_type at h
  rw [hc] at h
  simp only [hm] at h
  simp only [Option.some.injEq, Prod.mk.injEq] at h
  obtain ⟨ht, hp⟩ := h
  have hs : tokenStartOf p lm = p.current.endP := by
    unfold tokenStartOf
    rw [hm]
  rw [hs] at ht hp
  constructor
  · intro hcond
    rw [Bool.and_eq_true] at hcond
    obtain ⟨h1, h2⟩ := hcond
    subst hp
    show (lexSymbol p p.current.endP).modes = pop_lex_mode p.lex_modes
    unfold lexSymbol
    rcases hident : lex_identifier p.src p.current.endP p.previous.type
      with ⟨t0, w⟩
    simp only [h1, h2, if_true, hident]
    split <;> rfl
  · intro hcond
    subst hp
    refine ⟨?_, ?_⟩ <;>
      [skip; show (lexSymbol p p.current.endP).modes = p.lex_modes] <;>
    · subst ht
      unfold lexSymbol
      rcases Bool.and_eq_false_iff.mp hcond with h1 | h2
      · simp only [h1, Bool.false_eq_true, if_false]
      · by_cases h1 : decide (p.current.endP < p.src.length) = true
        · simp only [h1, if_true, h2, Bool.false_eq_true, if_false]
        · simp only [h1, Bool.false_eq_true, if_false]

/-- The parser produced by `lex_token_type` on `pC5w` (the identifier-start
case of symbol mode). -/
def pC5w' : yp_parser_t :=
  { pC5w with
    lex_modes :=
      { index := 0,
        stack := [zero_lex_mode, ⟨.YP_LEX_SYMBOL, 0, false⟩, zero_lex_mode,
                  zero_lex_mode],
        current := .known zero_lex_mode },
    current := ⟨.YP_TOKEN_SYMBOL_BEGIN, 1, 2⟩ }

/-- Witness for `C5_symbol_pop_conditional`, applied at `pC5w` whose cursor
rests on an identifier-start byte: the call pops the symbol mode. -/
theorem C5_symbol_pop_conditional_witness :
    pC5w'.lex_modes = pop_lex_mode pC5w.lex_modes :=
  (C5_symbol_pop_conditional pC5w ⟨.YP_LEX_SYMBOL, 0, false⟩
      .YP_TOKEN_IDENTIFIER pC5w' rfl rfl (by decide)).1 (by decide)

/-- C6 counterexample: `"foo.BEGIN"` lexes its third token as `CONSTANT`
(the keyword table is skipped after a dot and the uppercase first letter
selects the constant kind), not as `IDENTIFIER` as the claim states for
every keyword. -/
theorem C6_cex_upper_keyword_after_dot :
    (tokenAt (fooDot ++ kwBEGIN) 3).map (fun tk => tk.type) =
      some .YP_TOKEN_CONSTANT ∧
    (((tokenAt (fooDot ++ kwBEGIN) 3).map (fun tk => tk.type)) ==
      some .YP_TOKEN_IDENTIFIER) = false := by
  decide

/-- C6 (amended): for every keyword of the table except the uppercase
`BEGIN` and `END`, `"foo.K"` lexes as IDENTIFIER "foo", DOT, IDENTIFIER "K",
EOF while `K` alone lexes as the keyword kind; `foo.BEGIN` and `foo.END`
yield `CONSTANT` instead of `IDENTIFIER` (while `BEGIN`/`END` alone still
yield their keyword kinds); and `defined?` — absent from the table — only
keeps its `?` when the suffix is not at the very end of the buffer, so
`"foo.defined?"` splits into IDENTIFIER "defined" and QUESTION_MARK, and
`"defined?"` alone is not a keyword token either, while `"defined? x"`
lexes the keyword. -/
theorem C6_keyword_context :
    (kwPairs.all fun pr =>
      if pr.1 == kwBEGIN || pr.1 == kwEND then true
      else c6check pr.1 pr.2) = true ∧
    (tokenAt (fooDot ++ kwBEGIN) 3 = some ⟨.YP_TOKEN_CONSTANT, 4, 9⟩) ∧
    (tokenAt (fooDot ++ kwEND) 3 = some ⟨.YP_TOKEN_CONSTANT, 4, 7⟩) ∧
    (tokenAt kwBEGIN 1 = some ⟨.YP_TOKEN_KEYWORD_BEGIN_UPCASE, 0, 5⟩) ∧
    (tokenAt kwEND 1 = some ⟨.YP_TOKEN_KEYWORD_END_UPCASE, 0, 3⟩) ∧
    (tokenAt (fooDot ++ [100, 101, 102, 105, 110, 101, 100, 63]) 3 =
      some ⟨.YP_TOKEN_IDENTIFIER, 4, 11⟩) ∧
    (tokenAt (fooDot ++ [100, 101, 102, 105, 110, 101, 100, 63]) 4 =
      some ⟨.YP_TOKEN_QUESTION_MARK, 11, 12⟩) ∧
    (tokenAt [100, 101, 102, 105, 110, 101, 100, 63] 1 =
      some ⟨.YP_TOKEN_IDENTIFIER, 0, 7⟩) ∧
    (tokenAt [100, 101, 102, 105, 110, 101, 100, 63, 32, 120] 1 =
      some ⟨.YP_TOKEN_KEYWORD_DEFINED, 0, 8⟩) := by
  decide

/-- C7 counterexample: in `"2ir"` the `r` after the `i` suffix is not part
of the numeric token — the scanner tries `r` before `i`, so the first token
is IMAGINARY_NUMBER spanning only `"2i"` and the `r` starts an identifier
token, refuting "both suffixes may compose in either order". -/
theorem C7_cex_ir_order :
    tokenAt [50, 105, 114] 1 = some ⟨.YP_TOKEN_IMAGINARY_NUMBER, 0, 2⟩ ∧
    tokenAt [50, 105, 114] 2 = some ⟨.YP_TOKEN_IDENTIFIER, 2, 3⟩ ∧
    ((tokenAt [50, 105, 114] 1) ==
      some ⟨.YP_TOKEN_IMAGINARY_NUMBER, 0, 3⟩) = false := by
  decide

/-- C7 (amended): after a valid numeric body an `r` suffix upgrades the kind
to RATIONAL_NUMBER and an `i` suffix to IMAGINARY_NUMBER; the scanner checks
`r` first and then `i`, each at most once, so `"2ri"` consumes both suffixes
(ending IMAGINARY) while in `"2ir"` only the `i` is consumed and the `r`
begins the next token; a duplicated suffix (`"2rr"`, `"2ii"`) is likewise
left for the next token. -/
theorem C7_numeric_suffixes :
    tokenAt [50, 114] 1 = some ⟨.YP_TOKEN_RATIONAL_NUMBER, 0, 2⟩ ∧
    tokenAt [50, 105] 1 = some ⟨.YP_TOKEN_IMAGINARY_NUMBER, 0, 2⟩ ∧
    tokenAt [50, 114, 105] 1 = some ⟨.YP_TOKEN_IMAGINARY_NUMBER, 0, 3⟩ ∧
    tokenAt [50, 105, 114] 1 = some ⟨.YP_TOKEN_IMAGINARY_NUMBER, 0, 2⟩ ∧
    tokenAt [50, 105, 114] 2 = some ⟨.YP_TOKEN_IDENTIFIER, 2, 3⟩ ∧
    tokenAt [50, 114, 114] 1 = some ⟨.YP_TOKEN_RATIONAL_NUMBER, 0, 2⟩ ∧
    tokenAt [50, 114, 114] 2 = some ⟨.YP_TOKEN_IDENTIFIER, 2, 3⟩ ∧
    tokenAt [50, 105, 105] 1 = some ⟨.YP_TOKEN_IMAGINARY_NUMBER, 0, 2⟩ ∧
    tokenAt [50, 105, 105] 2 = some ⟨.YP_TOKEN_IDENTIFIER, 2, 3⟩ := by
  decide

/-- C8 counterexample: on the empty buffer the first call returns the EOF
token with byte range `[0, 1)` — its `end` consumes the NUL sentinel and
exceeds the buffer length 0, refuting `end ≤ length`. -/
theorem C8_cex_eof_past_end :
    tokenAt [] 1 = some ⟨.YP_TOKEN_EOF, 0, 1⟩ ∧
    decide (1 ≤ ([] : List Nat).length) = false := by
  decide

/-- C8 (amended): for every successful call, the new token starts at or
after the previous cursor and satisfies `start ≤ end`; consequently `start`
is monotonically non-decreasing along every token stream.  (The bound
`end ≤ length` of the original claim fails: sentinel reads let tokens end
past the buffer, see the counterexample.) -/
theorem C8_token_offsets :
    (∀ (p : yp_parser_t) (t : yp_token_type) (p' : yp_parser_t),
      lex_token_type p = some (t, p') →
      p.current.endP ≤ p'.current.start ∧
      p'.current.start ≤ p'.current.endP) ∧
    (∀ (source : List Nat) (n : Nat) (tk tk' : yp_token),
      tokenAt source n = some tk → tokenAt source (n + 1) = some tk' →
      tk.start ≤ tk'.start ∧ tk.start ≤ tk.endP) := by
  refine ⟨lex_token_type_bounds, ?_⟩
  intro source n tk tk' h1 h2
  unfold tokenAt at h1 h2
  cases hq : lexIter (yp_parser_init source) n with
  | none => rw [hq] at h1; exact absurd h1 (by simp)
  | some q =>
    rw [hq] at h1
    simp only [Option.map_some', Option.some.injEq] at h1
    have hwf : q.current.start ≤ q.current.endP := lexIter_wf source n q hq
    cases hq' : lexIter (yp_parser_init source) (n + 1) with
    | none => rw [hq'] at h2; exact absurd h2 (by simp)
    | some q' =>
      rw [hq'] at h2
      simp only [Option.map_some', Option.some.injEq] at h2
      have hstep : yp_lex_token q = some q' := by
        have := hq'
        unfold lexIter at this
        rw [hq] at this
        exact this
      have hb := yp_lex_token_bounds q q' hstep
      subst h1
      subst h2
      exact ⟨Nat.le_trans hwf hb.1, hwf⟩

/-- The parser produced by `lex_token_type` on a fresh parser over the
one-letter buffer `"a"`. -/
def pC8w' : yp_parser_t :=
  { yp_parser_init [97] with current := ⟨.YP_TOKEN_EOF, 0, 1⟩ }

/-- Witness for `C8_token_offsets`: its per-call part applied to the fresh
parser over `"a"`, whose call produces the identifier token `[0, 1)`. -/
theorem C8_token_offsets_witness :
    (yp_parser_init [97]).current.endP ≤ pC8w'.current.start ∧
    pC8w'.current.start ≤ pC8w'.current.endP :=
  C8_token_offsets.1 (yp_parser_init [97]) .YP_TOKEN_IDENTIFIER pC8w'
    (by decide)

/-- C9 counterexample: the comment token of `"#x\n"` consumes the trailing
newline (its range is `[0, 3)`, past the newline at offset 2) yet the line
counter stays 1 — the `match(parser, '\n')` of the comment case is not
paired with a lineno increment, refuting "incremented exactly once for
every newline consumed". -/
theorem C9_cex_comment_newline :
    (lexIter (yp_parser_init srcC9) 1).map (fun q => (q.current, q.lineno)) =
      some (⟨.YP_TOKEN_COMMENT, 0, 3⟩, 1) ∧
    byteAt srcC9 2 = 10 ∧
    (((lexIter (yp_parser_init srcC9) 1).map (fun q => q.lineno)) ==
      some 2) = false := by
  decide

/-- C9 (amended): `lineno` starts at 1 and is incremented for a NEWLINE
token, for newlines inside word-list separators, for newlines scanned in
string content, and once per complete embdoc body line; it is NOT
incremented for the newline that terminates a `#` comment, nor for the
newline inside the consumed `=begin\n` opener, nor inside the consumed
`=end\n` closer.  The embdoc trace below consumes four newlines but ends at
lineno 3. -/
theorem C9_lineno_increments :
    ((lexIter (yp_parser_init srcC9doc) 1).map
        (fun q => (q.current.type, q.lineno)) =
      some (.YP_TOKEN_NEWLINE, 2)) ∧
    ((lexIter (yp_parser_init srcC9doc) 2).map
        (fun q => (q.current.type, q.lineno)) =
      some (.YP_TOKEN_EMBDOC_BEGIN, 2)) ∧
    ((lexIter (yp_parser_init srcC9doc) 3).map
        (fun q => (q.current.type, q.lineno)) =
      some (.YP_TOKEN_EMBDOC_LINE, 3)) ∧
    ((lexIter (yp_parser_init srcC9doc) 4).map
        (fun q => (q.current.type, q.lineno)) =
      some (.YP_TOKEN_EMBDOC_END, 3)) ∧
    ((lexIter (yp_parser_init srcC9doc) 5).map
        (fun q => (q.current.type, q.lineno)) =
      some (.YP_TOKEN_IDENTIFIER, 3)) ∧
    countNewlines srcC9doc = 4 ∧
    ((lexIter (yp_parser_init srcC9) 1).map
        (fun q => (q.current.type, q.current.endP, q.lineno)) =
      some (.YP_TOKEN_COMMENT, 3, 1)) ∧
    ((lexIter (yp_parser_init srcC9list) 3).map
        (fun q => (q.current.type, q.lineno)) =
      some (.YP_TOKEN_WORDS_SEP, 2)) ∧
    ((lexIter (yp_parser_init srcC9str) 2).map
        (fun q => (q.current.type, q.lineno)) =
      some (.YP_TOKEN_STRING_CONTENT, 2)) := by
  decide

/-- C10: with embdoc mode on top, when the line at the cursor is not an
`=end` line and its terminating newline is the buffer's last byte, the call
consumes the line but emits no EMBDOC_LINE: it falls through to the
`unterminated_embdoc` handler (the default returns EOF), the line counter is
not incremented, and the mode stack is untouched — the final line is lost
from the token stream. -/
theorem C10_embdoc_final_line :
    ∀ (p : yp_parser_t) (lm : yp_lex_mode),
      p.lex_modes.current = .known lm → lm.mode = .YP_LEX_EMBDOC →
      strncmp_eq p.src p.current.endP [61, 101, 110, 100, 10] = false →
      p.current.endP + embdocLine (p.src.drop p.current.endP) = p.src.length →
      byteAt p.src (p.src.length - 1) = 10 →
      lex_token_type p = some (unrecoverable,
        { p with current := ⟨p.current.type, p.current.endP, p.src.length⟩ }) := by
  intro p lm hc hm hcmp hlen hnl
  unfold lex_token_type
  rw [hc]
  simp only [hm]
  have hs : tokenStartOf p lm = p.current.endP := by
    unfold tokenStartOf
    rw [hm]
  rw [hs]
  unfold lexEmbDoc
  rw [hcmp]
  simp only [Bool.false_eq_true, if_false]
  have hk : ¬ (p.current.endP + embdocLine (p.src.drop p.current.endP) <
      p.src.length) := by
    rw [hlen]
    exact Nat.lt_irrefl _
  simp only [decide_eq_true_eq, hk, if_false]
  rw [hlen]

/-- Witness for `C10_embdoc_final_line`: `pC10w` is in embdoc mode over the
two-byte buffer `"d\n"` whose newline is the last byte; the call returns the
default handler's EOF with the line consumed, the counter and the mode stack
untouched. -/
theorem C10_embdoc_final_line_witness :
    lex_token_type pC10w = some (unrecoverable,
      { pC10w with
        current := ⟨pC10w.current.type, pC10w.current.endP, pC10w.src.length⟩ }) :=
  C10_embdoc_final_line pC10w ⟨.YP_LEX_EMBDOC, 0, false⟩ rfl rfl
    (by decide) (by decide) (by decide)

end Yarp
